import Mathlib

/-!
Shallow embedding of the mahalla community-management application's core:
the points/rewards ledger (`src/models/points.py` on top of
`src/models/base.py`), the generic pagination helper (`src/models/base.py`),
attendance toggling (`src/pages/meetings.py`, `src/models/meeting.py`,
schema in `src/config/database.py`), and citizen phone/passport validation
(`src/models/citizen.py`).  Machine integers are `Int`/`Nat`; the SQLite
tables are Lean lists of rows; `date_earned` (an ISO date string in the
source, compared lexicographically, i.e. chronologically) is a `Nat` day
number; the fail-soft path of `DatabaseManager.execute_query` (log and
return `None` on an SQL exception) is not modelled — the embedding is the
deterministic success semantics of each statement.
-/

namespace Mahalla

/-- Python value as it appears in the `data` dict handed to
`validate_data`: an `int`, the one non-integral float occurring here (the
`1.5` stored under `regular_bonus_multiplier` in `POINTS_CONFIG`), a `str`,
or `None`.  `truthy` is Python truthiness, which the generic required-field
check of `BaseModel.validate_data` applies. -/
inductive Val where
  | vint : Int → Val
  | vfloat : Val
  | vstr : String → Val
  | vnone : Val
deriving DecidableEq

/-- Python truthiness of a `Val` (`0`, `""`, `None` are falsy; the float
here is `1.5`, which is truthy). -/
def Val.truthy : Val → Bool
  | .vint i => decide (i ≠ 0)
  | .vfloat => true
  | .vstr s => decide (s ≠ "")
  | .vnone => false

/-- `Val.toIntD d v` reads an `int` out of a `Val`, defaulting to `d`; on
every path where it is used the value has already passed the
`isinstance(points, int)` validation, so the default is never reached. -/
def Val.toIntD (d : Int) : Val → Int
  | .vint i => i
  | _ => d

/-- One row of the `citizen_points` table (the rewards ledger).
`created_at`/`updated_at` timestamps are omitted: nothing in the modelled
code reads them back. -/
structure Entry where
  id : Nat
  citizen_id : Int
  activity_type : String
  points : Int
  description : String
  meeting_id : Option Int
  date_earned : Nat
  created_by : Option Int
deriving DecidableEq

/-- One row of the `citizens` table, restricted to the fields the modelled
code reads: primary key, the denormalized running total, and the
soft-delete flag. -/
structure Citizen where
  id : Int
  total_points : Int
  is_active : Bool
deriving DecidableEq

/-- The persistent state the points model touches: the append-only ledger,
the citizens table, and the next AUTOINCREMENT rowid of `citizen_points`. -/
structure DB where
  ledger : List Entry
  citizens : List Citizen
  nextId : Nat
deriving DecidableEq

/-- Keys of `AppSettings.POINTS_CONFIG` (`src/config/settings.py`): four
integer activity values plus the `regular_bonus_multiplier` entry, whose
value is the float `1.5`.  `PointsModel.validate_data` checks
`activity_type` membership against exactly this key set — note `penalty`
is not in it. -/
def pointsConfigKeys : List String :=
  ["meeting_attendance", "subbotnik", "community_work", "volunteer_work",
   "regular_bonus_multiplier"]

/-- `self.points_config.get(activity_type, 5)`: the value stored under the
key, or the Python default `5`. -/
def configGet : String → Val
  | "meeting_attendance" => .vint 10
  | "subbotnik" => .vint 15
  | "community_work" => .vint 10
  | "volunteer_work" => .vint 12
  | "regular_bonus_multiplier" => .vfloat
  | _ => .vint 5

/-- Association-list lookup, the Python `data[key]` / `key in data`. -/
def dictGet : List (String × Val) → String → Option Val
  | [], _ => none
  | (k, v) :: rest, key => if k = key then some v else dictGet rest key

/-- `BaseModel.validate_data`: for each required field, an error when the
field is absent or its value is falsy (`if field not in data or not
data[field]`).  Error messages are abbreviated English stand-ins for the
Russian originals; only the emptiness of the result matters to callers. -/
def requiredFieldErrors (required : List String) (data : List (String × Val)) :
    List (String × String) :=
  (required.filter (fun f =>
    match dictGet data f with
    | none => true
    | some v => !v.truthy)).map (fun f => (f, "required field missing or empty"))

/-- The `citizen_id` branch of `PointsModel.validate_data`: must be a
positive `int` referencing an active citizen. -/
def citizenIdErrors (db : DB) (data : List (String × Val)) : List (String × String) :=
  match dictGet data "citizen_id" with
  | none => []
  | some (.vint i) =>
      if i ≤ 0 then [("citizen_id", "bad citizen id")]
      else if (db.citizens.filter (fun c => decide (c.id = i) && c.is_active)).isEmpty
      then [("citizen_id", "citizen not found or inactive")]
      else []
  | some _ => [("citizen_id", "bad citizen id")]

/-- The `activity_type` branch of `PointsModel.validate_data`: the value
must be a key of `POINTS_CONFIG`. -/
def activityTypeErrors (data : List (String × Val)) : List (String × String) :=
  match dictGet data "activity_type" with
  | none => []
  | some (.vstr s) =>
      if pointsConfigKeys.contains s then []
      else [("activity_type", "unknown activity type")]
  | some _ => [("activity_type", "unknown activity type")]

/-- The `points` branch of `PointsModel.validate_data`: an `int` in
`[-1000, 1000]`. -/
def pointsRangeErrors (data : List (String × Val)) : List (String × String) :=
  match dictGet data "points" with
  | none => []
  | some (.vint p) =>
      if p < -1000 ∨ 1000 < p then [("points", "points out of range")] else []
  | some _ => [("points", "points must be an integer")]

/-- `PointsModel.validate_data`: the base required-field check followed by
the three field-specific checks, collected into one error list (the Python
code collects them into a field-to-messages dict; emptiness agrees). -/
def validate_data (db : DB) (data : List (String × Val)) : List (String × String) :=
  requiredFieldErrors ["citizen_id", "activity_type", "points"] data
    ++ citizenIdErrors db data
    ++ activityTypeErrors data
    ++ pointsRangeErrors data

/-- `PointsModel._check_regular_activity`: `COUNT(DISTINCT date_earned)`
over the citizen's ledger rows of the given activity type with
`date_earned >= today - 90 days`, compared with the threshold 6.  (`Nat`
subtraction clamps at 0, as dates have no predecessor of day 0.) -/
def check_regular_activity (db : DB) (today : Nat) (citizen_id : Int)
    (activity_type : String) : Bool :=
  decide (6 ≤ (((db.ledger.filter (fun e =>
    decide (e.citizen_id = citizen_id) && decide (e.activity_type = activity_type)
      && decide (today - 90 ≤ e.date_earned))).map (fun e => e.date_earned)).dedup).length)

/-- `SUM(points)` over all ledger rows of one citizen (`COALESCE(..., 0)`
is the empty-list sum). -/
def ledgerSum (db : DB) (citizen_id : Int) : Int :=
  ((db.ledger.filter (fun e => decide (e.citizen_id = citizen_id))).map
    (fun e => e.points)).sum

/-- `PointsModel._update_citizen_total_points`: overwrite the citizen row's
denormalized `total_points` with the full `SUM(points)` recomputed from the
ledger (never an incremental add). -/
def update_citizen_total_points (db : DB) (citizen_id : Int) : DB :=
  { db with citizens := db.citizens.map (fun c =>
      if c.id = citizen_id then { c with total_points := ledgerSum db citizen_id } else c) }

/-- `int(points * 1.5)` of `award_points`: Python `int()` truncates toward
zero, and for every value reachable under the `[-1000, 1000]` bound the
float product is exact, so on ints this is `(3 * p).tdiv 2`; applied to the
float `1.5` (the config value resolved as a point value) it is
`int(1.5 * 1.5) = 2`. -/
def applyMultiplier : Val → Val
  | .vint p => .vint ((3 * p).tdiv 2)
  | .vfloat => .vint 2
  | v => v

/-- The point value `award_points` starts from: the explicit
`custom_points` override, or `points_config.get(activity_type, 5)`. -/
def resolveBase (activity_type : String) (custom_points : Option Int) : Val :=
  match custom_points with
  | some p => .vint p
  | none => configGet activity_type

/-- Helper embedding Python optional ints appearing as dict values. -/
def optVal : Option Int → Val
  | none => .vnone
  | some i => .vint i

/-- `PointsModel.award_points`: resolve the point value, apply the
regularity bonus when `_check_regular_activity` fires, validate the
assembled row, and on success insert it (AUTOINCREMENT id) and recompute
the citizen's denormalized total.  Returns the new ledger row id, or `none`
with the state unchanged on validation failure. -/
def award_points (db : DB) (today : Nat) (citizen_id : Int) (activity_type : String)
    (description : String) (meeting_id : Option Int) (custom_points : Option Int)
    (created_by : Option Int) : Option Nat × DB :=
  let base := resolveBase activity_type custom_points
  let pts := if check_regular_activity db today citizen_id activity_type
             then applyMultiplier base else base
  let data : List (String × Val) :=
    [("citizen_id", .vint citizen_id), ("activity_type", .vstr activity_type),
     ("points", pts), ("description", .vstr description),
     ("meeting_id", optVal meeting_id), ("date_earned", .vstr (toString today)),
     ("created_by", optVal created_by)]
  if validate_data db data = [] then
    let e : Entry :=
      { id := db.nextId, citizen_id := citizen_id, activity_type := activity_type,
        points := pts.toIntD 0, description := description, meeting_id := meeting_id,
        date_earned := today, created_by := created_by }
    let db1 : DB := { db with ledger := db.ledger ++ [e], nextId := db.nextId + 1 }
    (some db.nextId, update_citizen_total_points db1 citizen_id)
  else (none, db)

/-- `PointsModel.deduct_points`: sugar over `award_points` with activity
type `penalty` and `custom_points = -abs(points)`. -/
def deduct_points (db : DB) (today : Nat) (citizen_id : Int) (points : Int)
    (reason : String) (created_by : Option Int) : Option Nat × DB :=
  award_points db today citizen_id "penalty" ("Deduction: " ++ reason) none
    (some (-(points.natAbs : Int))) created_by

/-- `PointsModel.award_meeting_attendance_points`: fold the standard
`meeting_attendance` award over every citizen flagged present, counting the
successful awards. -/
def award_meeting_attendance_points (db : DB) (today : Nat) (meeting_id : Int)
    (attendance_data : List (Int × Bool)) : Nat × DB :=
  attendance_data.foldl (fun acc cp =>
    if cp.2 then
      match award_points acc.2 today cp.1 "meeting_attendance" "Meeting attendance"
          (some meeting_id) none none with
      | (some _, db2) => (acc.1 + 1, db2)
      | (none, db2) => (acc.1, db2)
    else acc) (0, db)

/-- The pagination metadata dict of `BaseModel.get_paginated`. -/
structure PageMeta where
  page : Nat
  page_size : Nat
  total_count : Nat
  total_pages : Nat
  has_next : Bool
  has_prev : Bool
deriving DecidableEq

/-- `BaseModel.get_paginated`: `rows` is the filtered table already in the
declared `ORDER BY` order (`count` uses the same filter, so
`total_count = rows.length`); the page is `LIMIT page_size OFFSET
(page - 1) * page_size`, and `total_pages = (total_count + page_size - 1)
// page_size`. -/
def get_paginated {α : Type} (rows : List α) (page : Nat) (page_size : Nat) :
    List α × PageMeta :=
  let total_count := rows.length
  let offset := (page - 1) * page_size
  let data := (rows.drop offset).take page_size
  let total_pages := (total_count + page_size - 1) / page_size
  (data,
   { page := page, page_size := page_size, total_count := total_count,
     total_pages := total_pages, has_next := decide (page < total_pages),
     has_prev := decide (1 < page) })

/-- One row of the `attendance` table
(`DatabaseManager._create_attendance_table`): `UNIQUE(citizen_id,
meeting_id)`, with column defaults `is_present 0`, `points_earned 0`, and
NULL `arrival_time`/`notes`. -/
structure AttRow where
  id : Nat
  citizen_id : Int
  meeting_id : Int
  is_present : Int
  points_earned : Int
  arrival_time : Option String
  notes : Option String
deriving DecidableEq

/-- One row of the `meetings` table, restricted to the fields attendance
toggling touches. -/
structure MeetingRow where
  id : Int
  attendance_count : Int
  total_invited : Int
deriving DecidableEq

/-- The state attendance toggling touches: the `attendance` table, the
`meetings` table, and the next AUTOINCREMENT rowid of `attendance`. -/
structure MDB where
  attendance : List AttRow
  meetings : List MeetingRow
  nextAttId : Nat
deriving DecidableEq

/-- `COUNT(*)` over attendance rows of one meeting. -/
def meetingRowCount (db : MDB) (meeting_id : Int) : Nat :=
  (db.attendance.filter (fun r => decide (r.meeting_id = meeting_id))).length

/-- `SUM(CASE WHEN is_present = 1 THEN 1 ELSE 0 END)` over attendance rows
of one meeting. -/
def meetingPresentCount (db : MDB) (meeting_id : Int) : Nat :=
  (db.attendance.filter (fun r =>
    decide (r.meeting_id = meeting_id) && decide (r.is_present = 1))).length

/-- `MeetingModel.update_attendance_count`: recompute the meeting's
denormalized `total_invited`/`attendance_count` from a fresh aggregate over
the `attendance` table and write them onto the meeting row. -/
def update_attendance_count (db : MDB) (meeting_id : Int) : MDB :=
  { db with meetings := db.meetings.map (fun m =>
      if m.id = meeting_id then
        { m with total_invited := (meetingRowCount db meeting_id : Int),
                 attendance_count := (meetingPresentCount db meeting_id : Int) }
      else m) }

/-- `toggle_attendance` (`src/pages/meetings.py`): `INSERT OR REPLACE INTO
attendance (citizen_id, meeting_id, is_present) VALUES (?, ?, ?)`.  Under
the `UNIQUE(citizen_id, meeting_id)` constraint the REPLACE deletes any
existing row of the pair and inserts a fresh row carrying the column
defaults for every unsupplied field and a new AUTOINCREMENT id; then the
meeting's counters are recomputed. -/
def toggle_attendance (db : MDB) (meeting_id : Int) (citizen_id : Int)
    (is_present : Bool) : MDB :=
  let newRow : AttRow :=
    { id := db.nextAttId, citizen_id := citizen_id, meeting_id := meeting_id,
      is_present := if is_present then 1 else 0, points_earned := 0,
      arrival_time := none, notes := none }
  let db1 : MDB :=
    { db with
      attendance := (db.attendance.filter (fun r =>
        !(decide (r.citizen_id = citizen_id) && decide (r.meeting_id = meeting_id))))
        ++ [newRow],
      nextAttId := db.nextAttId + 1 }
  update_attendance_count db1 meeting_id

/-- Number of attendance rows of one (citizen, meeting) pair. -/
def pairRowCount (db : MDB) (citizen_id : Int) (meeting_id : Int) : Nat :=
  (db.attendance.filter (fun r =>
    decide (r.citizen_id = citizen_id) && decide (r.meeting_id = meeting_id))).length

/-- A sequence of `toggle_attendance` calls for one (citizen, meeting)
pair, one per presence flag in the list. -/
def toggleSeq (db : MDB) (meeting_id : Int) (citizen_id : Int) : List Bool → MDB
  | [] => db
  | b :: bs => toggleSeq (toggle_attendance db meeting_id citizen_id b) meeting_id citizen_id bs

/-- One row of `PointsModel.get_leaderboard`. -/
structure LBRow where
  id : Int
  total_points : Int
  activities_count : Nat
deriving DecidableEq

/-- `COUNT(cp.id)` of the all-time leaderboard's LEFT JOIN: the number of
ledger rows of the citizen (0 when the citizen has none). -/
def activitiesCount (db : DB) (citizen_id : Int) : Nat :=
  (db.ledger.filter (fun e => decide (e.citizen_id = citizen_id))).length

/-- The key order of `ORDER BY c.total_points DESC, activities_count
DESC`: `a` may come before `b`. -/
def lbOrder (a b : LBRow) : Prop :=
  b.total_points < a.total_points
    ∨ (a.total_points = b.total_points ∧ b.activities_count ≤ a.activities_count)

instance : DecidableRel lbOrder := fun a b => by unfold lbOrder; infer_instance

instance : IsTotal LBRow lbOrder := ⟨fun a b => by unfold lbOrder; omega⟩

instance : IsTrans LBRow lbOrder := ⟨fun a b c hab hbc => by unfold lbOrder at *; omega⟩

/-- The all-time branch of `PointsModel.get_leaderboard` (no
`period_days`): active citizens with a positive denormalized lifetime
total, ordered by total descending then activity count descending,
truncated to `limit`.  SQL leaves the relative order of rows equal under
both keys unspecified; the embedding fixes it with a concrete sort that is
correct for the comparator. -/
def get_leaderboard (db : DB) (limit : Nat) : List LBRow :=
  (List.insertionSort lbOrder
    ((db.citizens.filter (fun c => c.is_active && decide (0 < c.total_points))).map
      (fun c => { id := c.id, total_points := c.total_points,
                  activities_count := activitiesCount db c.id : LBRow }))).take limit

/-- `PointsModel.get_citizen_rank`: `COUNT(*) + 1` over active citizens
whose `total_points` exceeds the scalar subquery `SELECT total_points FROM
citizens WHERE id = ? AND is_active = 1`.  When the subquery yields no row
(unknown or inactive citizen) the SQL comparison with NULL holds for no
row, so the count is 0 and the result is 1. -/
def get_citizen_rank (db : DB) (citizen_id : Int) : Option Int :=
  match (db.citizens.find? (fun c => decide (c.id = citizen_id) && c.is_active)).map
      (fun c => c.total_points) with
  | none => some 1
  | some t =>
      some (((db.citizens.filter (fun c =>
        c.is_active && decide (t < c.total_points))).length : Int) + 1)

/-- Modelled from the claim text of C7 for comparison with
`get_citizen_rank`: 1 plus the number of active citizens whose lifetime
total strictly exceeds that citizen's lifetime total, for whatever citizen
row the id names. -/
def rankSpec (db : DB) (citizen_id : Int) : Option Int :=
  (db.citizens.find? (fun c => decide (c.id = citizen_id))).map (fun c =>
    ((db.citizens.filter (fun c2 =>
      c2.is_active && decide (c.total_points < c2.total_points))).length : Int) + 1)

/-- The separator characters `re.sub` removes in
`CitizenModel._validate_phone` (the pattern covers whitespace, dashes and
parentheses). -/
def isPhoneSeparator (c : Char) : Bool :=
  decide (c = ' ') || decide (c = '\t') || decide (c = '\n') || decide (c = '\r')
    || decide (c = '\x0b') || decide (c = '\x0c') || decide (c = '-')
    || decide (c = '(') || decide (c = ')')

/-- Nine ASCII digits. -/
def nineDigits (l : List Char) : Bool :=
  decide (l.length = 9) && l.all Char.isDigit

/-- The anchored regex of `_validate_phone`: an optional prefix `+998`,
`998` or `8`, then exactly nine digits (the optional group backtracks, so
the language is the union of the four shapes). -/
def matchesUzPhone (l : List Char) : Bool :=
  nineDigits l ||
    (match l with
     | '+' :: '9' :: '9' :: '8' :: rest => nineDigits rest
     | '9' :: '9' :: '8' :: rest => nineDigits rest
     | '8' :: rest => nineDigits rest
     | _ => false)

/-- `CitizenModel._validate_phone`: strip separators, then match the
country-code-aware pattern. -/
def validate_phone (phone : String) : Bool :=
  matchesUzPhone (phone.toList.filter (fun c => !isPhoneSeparator c))

/-- `CitizenModel._format_phone`: keep digits and `+`, then normalize the
recognized shapes to `+998XXXXXXXXX`, returning the input unchanged when no
shape matches (the `elif` chain falls through on a failed length check). -/
def format_phone (phone : String) : String :=
  if phone.toList = [] then ""
  else
    let cp := phone.toList.filter (fun c => c.isDigit || decide (c = '+'))
    if ['9', '9', '8'].isPrefixOf cp && decide (cp.length = 12) then
      ⟨'+' :: cp⟩
    else if ['8'].isPrefixOf cp && decide (cp.length = 10) then
      ⟨'+' :: '9' :: '9' :: '8' :: cp.tail⟩
    else if ['9'].isPrefixOf cp && decide (cp.length = 9) then
      ⟨'+' :: '9' :: '9' :: '8' :: cp⟩
    else if ['+', '9', '9', '8'].isPrefixOf cp && decide (cp.length = 13) then
      ⟨cp⟩
    else phone

/-- An upper-case ASCII letter, the `[A-Z]` class. -/
def isUpperLetter (c : Char) : Bool :=
  decide ('A' ≤ c) && decide (c ≤ 'Z')

/-- `CitizenModel._validate_passport`: upper-case the input, then match the
anchored pattern of two letters followed by seven digits. -/
def validate_passport (passport : String) : Bool :=
  match passport.toList.map Char.toUpper with
  | a :: b :: rest =>
      isUpperLetter a && isUpperLetter b && decide (rest.length = 7)
        && rest.all Char.isDigit
  | _ => false

/-- The `passport_data.strip().upper()` normalization of
`CitizenModel.add_citizen`. -/
def normalize_passport (passport : String) : String :=
  ⟨(((passport.toList.dropWhile Char.isWhitespace).reverse.dropWhile
      Char.isWhitespace).reverse).map Char.toUpper⟩

/-- Number of distinct `date_earned` values of one citizen's ledger rows of
one activity type lying within the trailing 90-day window ending today:
the regularity window as the claims phrase it (both bounds). -/
def distinctRecentDays (db : DB) (today : Nat) (citizen_id : Int)
    (activity_type : String) : Nat :=
  (((db.ledger.filter (fun e =>
    decide (e.citizen_id = citizen_id) && decide (e.activity_type = activity_type)
      && decide (today - 90 ≤ e.date_earned) && decide (e.date_earned ≤ today))).map
    (fun e => e.date_earned)).dedup).length

/-- A validation result with a member is a non-empty error mapping. -/
theorem validate_data_ne_nil_of_mem {db : DB} {data : List (String × Val)}
    {x : String × String} (h : x ∈ validate_data db data) :
    validate_data db data ≠ [] :=
  List.ne_nil_of_mem h

/-- An `activity_type` of `penalty` always draws an unknown-activity-type
error, because `penalty` is not a key of `POINTS_CONFIG`. -/
theorem penalty_error_mem {db : DB} {data : List (String × Val)}
    (h : dictGet data "activity_type" = some (.vstr "penalty")) :
    ("activity_type", "unknown activity type") ∈ validate_data db data := by
  have ha : activityTypeErrors data = [("activity_type", "unknown activity type")] := by
    simp [activityTypeErrors, h, pointsConfigKeys]
  unfold validate_data
  rw [ha]
  simp

/-- A `points` value of the integer 0 draws a required-field error from the
generic check, because Python 0 is falsy. -/
theorem zero_points_required_error {data : List (String × Val)}
    (h : dictGet data "points" = some (.vint 0)) :
    ("points", "required field missing or empty")
      ∈ requiredFieldErrors ["citizen_id", "activity_type", "points"] data := by
  unfold requiredFieldErrors
  refine List.mem_map.mpr ⟨"points", List.mem_filter.mpr ⟨by simp, ?_⟩, rfl⟩
  simp [h, Val.truthy]

/-- The same error, placed in the full validation result. -/
theorem zero_points_error_mem {db : DB} {data : List (String × Val)}
    (h : dictGet data "points" = some (.vint 0)) :
    ("points", "required field missing or empty") ∈ validate_data db data := by
  unfold validate_data
  exact List.mem_append_left _ (List.mem_append_left _ (List.mem_append_left _
    (zero_points_required_error h)))

/-- The data dict `award_points` assembles for a `penalty` award never
validates, whatever the point value. -/
theorem award_data_penalty_invalid (db : DB) (citizen_id : Int) (pts : Val)
    (description : String) (meeting_id : Option Int) (d : String)
    (created_by : Option Int) :
    validate_data db
      [("citizen_id", .vint citizen_id), ("activity_type", .vstr "penalty"),
       ("points", pts), ("description", .vstr description),
       ("meeting_id", optVal meeting_id), ("date_earned", .vstr d),
       ("created_by", optVal created_by)] ≠ [] :=
  validate_data_ne_nil_of_mem (penalty_error_mem rfl)

/-- The data dict `award_points` assembles never validates when the point
value in it is the integer 0. -/
theorem award_data_zero_points_invalid (db : DB) (citizen_id : Int)
    (activity_type : String) (description : String) (meeting_id : Option Int)
    (d : String) (created_by : Option Int) :
    validate_data db
      [("citizen_id", .vint citizen_id), ("activity_type", .vstr activity_type),
       ("points", .vint 0), ("description", .vstr description),
       ("meeting_id", optVal meeting_id), ("date_earned", .vstr d),
       ("created_by", optVal created_by)] ≠ [] :=
  validate_data_ne_nil_of_mem (zero_points_error_mem rfl)

/-- C8: the citizen phone `"901234567"` passes validation and normalizes to
`"+998901234567"`; the phone `"12345"` fails validation; the passport
`"ab1234567"` normalizes to upper-case `"AB1234567"` and passes the
two-letters-seven-digits pattern; the passport `"AB12345"` fails. -/
theorem c8_validation_boundary :
    validate_phone "901234567" = true
      ∧ format_phone "901234567" = "+998901234567"
      ∧ validate_phone "12345" = false
      ∧ normalize_passport "ab1234567" = "AB1234567"
      ∧ validate_passport "ab1234567" = true
      ∧ validate_passport "AB12345" = false := by
  decide

/-- C3: `deduct_points` can never succeed.  It delegates to `award_points`
with activity type `penalty`, but `penalty` is not a key of
`POINTS_CONFIG`, so `PointsModel.validate_data` always reports an unknown
activity type and `award_points` returns the failure sentinel with the
state unchanged — no ledger entry of `-amount` is ever appended. -/
theorem c3_deduct_points_always_fails (db : DB) (today : Nat) (citizen_id : Int)
    (points : Int) (reason : String) (created_by : Option Int) :
    deduct_points db today citizen_id points reason created_by = (none, db) := by
  simp only [deduct_points, award_points]
  rw [if_neg (award_data_penalty_invalid db citizen_id _ _ _ _ _)]

/-- C7 counterexample database: citizen 1 is inactive with lifetime total
0, citizen 2 is active with lifetime total 50. -/
def c7db : DB :=
  { ledger := [], citizens := [⟨1, 0, false⟩, ⟨2, 50, true⟩], nextId := 0 }

/-- C7 fails as stated: for the inactive citizen 1 the code's scalar
subquery returns no row, the NULL comparison counts nobody, and
`get_citizen_rank` returns 1 — but 1 plus the number of active citizens
with a strictly greater total than citizen 1's total (0) is 2. -/
theorem c7_rank_counterexample :
    get_citizen_rank c7db 1 = some 1 ∧ rankSpec c7db 1 = some 2 := by
  decide

/-- C7 amended: for every citizen id that names an active citizen row,
`get_citizen_rank` returns 1 plus the number of active citizens whose
lifetime `total_points` strictly exceeds that citizen's lifetime total. -/
theorem c7_rank_of_active_citizen (db : DB) (citizen_id : Int) (c : Citizen)
    (h : db.citizens.find? (fun c2 => decide (c2.id = citizen_id) && c2.is_active)
      = some c) :
    get_citizen_rank db citizen_id =
      some (((db.citizens.filter (fun c2 =>
        c2.is_active && decide (c.total_points < c2.total_points))).length : Int) + 1) := by
  simp [get_citizen_rank, h]

/-- C7 amended, checked at a concrete input: active citizen 2 of the
counterexample database ranks first. -/
theorem c7_rank_of_active_citizen_witness :
    c7db.citizens.find? (fun c2 => decide (c2.id = 2) && c2.is_active)
        = some ⟨2, 50, true⟩
      ∧ get_citizen_rank c7db 2 =
        some (((c7db.citizens.filter (fun c2 =>
          c2.is_active && decide ((50 : Int) < c2.total_points))).length : Int) + 1) :=
  ⟨by decide, c7_rank_of_active_citizen c7db 2 ⟨2, 50, true⟩ (by decide)⟩

/-- C9: a data mapping whose `points` entry is the integer 0 always fails
validation (the generic required-field check treats the falsy 0 as
missing), and consequently `award_points` returns the failure sentinel
with the state unchanged whenever the resolved point value is 0 — even
though 0 lies inside the documented `[-1000, 1000]` bound. -/
theorem c9_zero_points_rejected (db : DB) (today : Nat) (citizen_id : Int)
    (activity_type : String) (description : String) (meeting_id : Option Int)
    (custom_points : Option Int) (created_by : Option Int)
    (data : List (String × Val))
    (hdata : dictGet data "points" = some (.vint 0))
    (hres : resolveBase activity_type custom_points = .vint 0) :
    validate_data db data ≠ []
      ∧ award_points db today citizen_id activity_type description meeting_id
          custom_points created_by = (none, db) := by
  constructor
  · exact validate_data_ne_nil_of_mem (zero_points_error_mem hdata)
  · simp only [award_points]
    rw [hres]
    have hmul : applyMultiplier (.vint 0) = .vint 0 := by decide
    rw [hmul, ite_self]
    rw [if_neg (award_data_zero_points_invalid db citizen_id _ _ _ _ _)]

/-- C9, checked at a concrete input: an explicit `custom_points = 0` award
to an active citizen is rejected. -/
theorem c9_zero_points_rejected_witness :
    dictGet [("points", Val.vint 0)] "points" = some (Val.vint 0)
      ∧ resolveBase "subbotnik" (some 0) = Val.vint 0
      ∧ (validate_data ⟨[], [⟨1, 0, true⟩], 0⟩ [("points", Val.vint 0)] ≠ []
        ∧ award_points ⟨[], [⟨1, 0, true⟩], 0⟩ 10 1 "subbotnik" "" none (some 0) none
          = (none, ⟨[], [⟨1, 0, true⟩], 0⟩)) :=
  ⟨rfl, rfl, c9_zero_points_rejected ⟨[], [⟨1, 0, true⟩], 0⟩ 10 1 "subbotnik" ""
    none (some 0) none [("points", Val.vint 0)] rfl rfl⟩

/-- The recompute never touches the ledger. -/
theorem update_total_ledger_eq (db : DB) (citizen_id : Int) :
    (update_citizen_total_points db citizen_id).ledger = db.ledger := rfl

/-- After the recompute, the citizen row carries exactly the ledger sum,
whatever value was stored before (drift is corrected). -/
theorem update_total_sets_sum (db : DB) (citizen_id : Int) :
    ∀ c ∈ (update_citizen_total_points db citizen_id).citizens,
      c.id = citizen_id → c.total_points = ledgerSum db citizen_id := by
  intro c hc hid
  simp only [update_citizen_total_points, List.mem_map] at hc
  obtain ⟨a, _, ha⟩ := hc
  by_cases h : a.id = citizen_id
  · rw [if_pos h] at ha
    rw [← ha]
  · rw [if_neg h] at ha
    rw [← ha] at hid
    exact absurd hid h

/-- Recomputing the total twice in a row is the same as recomputing it
once: the second pass reads the unchanged ledger and overwrites with the
same sum. -/
theorem update_total_idem (db : DB) (citizen_id : Int) :
    update_citizen_total_points (update_citizen_total_points db citizen_id) citizen_id
      = update_citizen_total_points db citizen_id := by
  simp only [update_citizen_total_points, update_total_ledger_eq, List.map_map]
  congr 1
  apply List.map_congr_left
  intro a _
  by_cases h : a.id = citizen_id
  · simp [h, Function.comp, ledgerSum]
  · simp [h, Function.comp, ledgerSum]

/-- C2: after every successful `award_points` (and so after every
successful per-citizen award inside `award_meeting_attendance_points`, and
on every `deduct_points` success path, both of which are direct
`award_points` calls), the citizen row's denormalized `total_points`
equals `SUM(points)` over all of that citizen's ledger rows; the recompute
is a full overwrite, so it is idempotent and corrects any prior drift of
the stored total. -/
theorem c2_total_points_recompute (db : DB) (today : Nat) (citizen_id : Int)
    (activity_type : String) (description : String) (meeting_id : Option Int)
    (custom_points : Option Int) (created_by : Option Int) (i : Nat) (db' : DB)
    (hsucc : award_points db today citizen_id activity_type description meeting_id
      custom_points created_by = (some i, db')) :
    (∀ c ∈ db'.citizens, c.id = citizen_id → c.total_points = ledgerSum db' citizen_id)
      ∧ (∀ d : DB, ∀ cid : Int,
          update_citizen_total_points (update_citizen_total_points d cid) cid
            = update_citizen_total_points d cid)
      ∧ (∀ d : DB, ∀ cid : Int, ∀ c ∈ (update_citizen_total_points d cid).citizens,
          c.id = cid → c.total_points = ledgerSum d cid) := by
  refine ⟨?_, update_total_idem, update_total_sets_sum⟩
  simp only [award_points] at hsucc
  split at hsucc <;> split at hsucc
  all_goals try exact absurd (congrArg Prod.fst hsucc) (fun h => Option.noConfusion h)
  all_goals
    obtain rfl : update_citizen_total_points _ citizen_id = db' :=
      congrArg Prod.snd hsucc
    intro c hc hid
    have h := update_total_sets_sum _ citizen_id c hc hid
    exact h

/-- C2 example state: citizen 1's stored total has drifted to 7 while the
ledger is empty; a successful award overwrites it with the true sum. -/
def c2db : DB := { ledger := [], citizens := [⟨1, 7, true⟩], nextId := 0 }

/-- The state after the C2 witness award. -/
def c2db' : DB := (award_points c2db 10 1 "subbotnik" "" none none none).2

/-- C2, checked at a concrete input: the award succeeds and the stored
total equals the ledger sum afterwards. -/
theorem c2_total_points_recompute_witness :
    award_points c2db 10 1 "subbotnik" "" none none none = (some 0, c2db')
      ∧ ((∀ c ∈ c2db'.citizens, c.id = 1 → c.total_points = ledgerSum c2db' 1)
        ∧ (∀ d : DB, ∀ cid : Int,
            update_citizen_total_points (update_citizen_total_points d cid) cid
              = update_citizen_total_points d cid)
        ∧ (∀ d : DB, ∀ cid : Int, ∀ c ∈ (update_citizen_total_points d cid).citizens,
            c.id = cid → c.total_points = ledgerSum d cid)) :=
  ⟨by decide, c2_total_points_recompute c2db 10 1 "subbotnik" "" none none none 0 c2db'
    (by decide)⟩

/-- When no ledger row is dated after today (true of every state the
application can reach, since awards are always dated today), the code's
one-sided window test `date_earned >= today - 90` agrees with the
two-sided trailing-90-days window of the claim. -/
theorem check_regular_eq_window (db : DB) (today : Nat) (citizen_id : Int)
    (activity_type : String) (hdates : ∀ e ∈ db.ledger, e.date_earned ≤ today) :
    check_regular_activity db today citizen_id activity_type
      = decide (6 ≤ distinctRecentDays db today citizen_id activity_type) := by
  have hf : db.ledger.filter (fun e =>
        decide (e.citizen_id = citizen_id) && decide (e.activity_type = activity_type)
          && decide (today - 90 ≤ e.date_earned) && decide (e.date_earned ≤ today))
      = db.ledger.filter (fun e =>
        decide (e.citizen_id = citizen_id) && decide (e.activity_type = activity_type)
          && decide (today - 90 ≤ e.date_earned)) :=
    List.filter_congr (fun e he => by simp [hdates e he])
  unfold check_regular_activity distinctRecentDays
  rw [hf]

/-- C1: when the ledger already holds rows of this citizen and activity
type on at least 6 distinct dates within the trailing 90 days, a
successful `award_points` inserts the resolved point value (per-activity
default or explicit `custom_points` override) multiplied by the configured
1.5 and truncated to an integer; with rows on 5 or fewer distinct dates in
that window the resolved value is inserted unchanged. -/
theorem c1_regularity_bonus (db : DB) (today : Nat) (citizen_id : Int)
    (activity_type : String) (description : String) (meeting_id : Option Int)
    (custom_points : Option Int) (created_by : Option Int) (p : Int) (i : Nat)
    (db' : DB)
    (hdates : ∀ e ∈ db.ledger, e.date_earned ≤ today)
    (hbase : resolveBase activity_type custom_points = .vint p)
    (hsucc : award_points db today citizen_id activity_type description meeting_id
      custom_points created_by = (some i, db')) :
    db'.ledger = db.ledger ++
      [{ id := i, citizen_id := citizen_id, activity_type := activity_type,
         points := if 6 ≤ distinctRecentDays db today citizen_id activity_type
                   then (3 * p).tdiv 2 else p,
         description := description, meeting_id := meeting_id,
         date_earned := today, created_by := created_by }] := by
  simp only [award_points, hbase,
    check_regular_eq_window db today citizen_id activity_type hdates] at hsucc
  by_cases hreg : 6 ≤ distinctRecentDays db today citizen_id activity_type
  · rw [if_pos hreg]
    rw [if_pos (decide_eq_true hreg)] at hsucc
    simp only [applyMultiplier, Val.toIntD] at hsucc
    split at hsucc
    · obtain rfl : db.nextId = i := Option.some.inj (congrArg Prod.fst hsucc)
      obtain rfl : update_citizen_total_points _ citizen_id = db' :=
        congrArg Prod.snd hsucc
      rfl
    · exact absurd (congrArg Prod.fst hsucc) (fun h => Option.noConfusion h)
  · rw [if_neg hreg]
    rw [if_neg (fun h => hreg (of_decide_eq_true h))] at hsucc
    simp only [Val.toIntD] at hsucc
    split at hsucc
    · obtain rfl : db.nextId = i := Option.some.inj (congrArg Prod.fst hsucc)
      obtain rfl : update_citizen_total_points _ citizen_id = db' :=
        congrArg Prod.snd hsucc
      rfl
    · exact absurd (congrArg Prod.fst hsucc) (fun h => Option.noConfusion h)

/-- C1 example state: citizen 1 already has subbotnik rows on 6 distinct
days (10..15) within 90 days of day 95. -/
def c1db : DB :=
  { ledger :=
      [⟨0, 1, "subbotnik", 15, "x", none, 10, none⟩,
       ⟨1, 1, "subbotnik", 15, "x", none, 11, none⟩,
       ⟨2, 1, "subbotnik", 15, "x", none, 12, none⟩,
       ⟨3, 1, "subbotnik", 15, "x", none, 13, none⟩,
       ⟨4, 1, "subbotnik", 15, "x", none, 14, none⟩,
       ⟨5, 1, "subbotnik", 15, "x", none, 15, none⟩],
    citizens := [⟨1, 90, true⟩], nextId := 6 }

/-- The state after the C1 witness award. -/
def c1db' : DB := (award_points c1db 95 1 "subbotnik" "" none none none).2

/-- C1, checked at a concrete input: the 7th subbotnik award inserts
`int(15 * 1.5) = 22` points. -/
theorem c1_regularity_bonus_witness :
    (∀ e ∈ c1db.ledger, e.date_earned ≤ 95)
      ∧ resolveBase "subbotnik" none = .vint 15
      ∧ award_points c1db 95 1 "subbotnik" "" none none none = (some 6, c1db')
      ∧ c1db'.ledger = c1db.ledger ++
          [{ id := 6, citizen_id := 1, activity_type := "subbotnik",
             points := if 6 ≤ distinctRecentDays c1db 95 1 "subbotnik"
                       then ((3 : Int) * 15).tdiv 2 else 15,
             description := "", meeting_id := none, date_earned := 95,
             created_by := none }] :=
  ⟨by decide, rfl, by decide,
    c1_regularity_bonus c1db 95 1 "subbotnik" "" none none none 15 6 c1db'
      (by decide) rfl (by decide)⟩

/-- Recomputing the meeting counters never touches the attendance table. -/
theorem update_count_attendance_eq (db : MDB) (meeting_id : Int) :
    (update_attendance_count db meeting_id).attendance = db.attendance := rfl

/-- After one toggle, the pair has exactly one attendance row: the REPLACE
first removes every row of the pair, then inserts one. -/
theorem pairRowCount_toggle (db : MDB) (meeting_id citizen_id : Int) (b : Bool) :
    pairRowCount (toggle_attendance db meeting_id citizen_id b) citizen_id meeting_id
      = 1 := by
  unfold toggle_attendance pairRowCount
  rw [update_count_attendance_eq]
  simp [List.filter_append, List.filter_filter, Bool.and_comm]

/-- The filtered attendance rows of one toggle's pair are exactly the
fresh row the REPLACE inserted. -/
theorem toggle_pair_rows (db : MDB) (meeting_id citizen_id : Int) (b : Bool) :
    (toggle_attendance db meeting_id citizen_id b).attendance.filter (fun r =>
        decide (r.citizen_id = citizen_id) && decide (r.meeting_id = meeting_id))
      = [{ id := db.nextAttId, citizen_id := citizen_id, meeting_id := meeting_id,
           is_present := if b then 1 else 0, points_earned := 0,
           arrival_time := none, notes := none }] := by
  unfold toggle_attendance
  rw [update_count_attendance_eq]
  simp [List.filter_append, List.filter_filter, Bool.and_comm]

/-- After the counter recompute, every row of the meeting carries the live
aggregates. -/
theorem counters_after_update (db : MDB) (meeting_id : Int) :
    ∀ m ∈ (update_attendance_count db meeting_id).meetings, m.id = meeting_id →
      m.total_invited = (meetingRowCount db meeting_id : Int)
        ∧ m.attendance_count = (meetingPresentCount db meeting_id : Int) := by
  intro m hm hid
  simp only [update_attendance_count, List.mem_map] at hm
  obtain ⟨a, _, ha⟩ := hm
  by_cases h : a.id = meeting_id
  · rw [if_pos h] at ha
    rw [← ha]
    exact ⟨rfl, rfl⟩
  · rw [if_neg h] at ha
    rw [← ha] at hid
    exact absurd hid h

/-- C4: any sequence of `toggle_attendance` calls for one (citizen,
meeting) pair leaves at most one attendance row for the pair, and after
each toggle the meeting's denormalized `total_invited` equals the count of
attendance rows of the meeting while `attendance_count` equals the count
of those rows with `is_present = 1` — fresh aggregates, not stale cached
values. -/
theorem c4_attendance_upsert (db : MDB) (meeting_id citizen_id : Int)
    (bs : List Bool) (b : Bool)
    (hinv : pairRowCount db citizen_id meeting_id ≤ 1) :
    pairRowCount (toggleSeq db meeting_id citizen_id bs) citizen_id meeting_id ≤ 1
      ∧ (∀ m ∈ (toggle_attendance db meeting_id citizen_id b).meetings,
          m.id = meeting_id →
            m.total_invited =
              (meetingRowCount (toggle_attendance db meeting_id citizen_id b)
                meeting_id : Int)
            ∧ m.attendance_count =
              (meetingPresentCount (toggle_attendance db meeting_id citizen_id b)
                meeting_id : Int)) := by
  constructor
  · induction bs generalizing db with
    | nil => exact hinv
    | cons hd tl ih =>
        exact ih (toggle_attendance db meeting_id citizen_id hd)
          (le_of_eq (pairRowCount_toggle db meeting_id citizen_id hd))
  · intro m hm hid
    have h := counters_after_update _ meeting_id m hm hid
    exact h

/-- C4 example state: one meeting, one attendance row of another citizen. -/
def c4db : MDB :=
  { attendance := [⟨0, 2, 7, 1, 0, none, none⟩], meetings := [⟨7, 1, 1⟩],
    nextAttId := 1 }

/-- C4, checked at a concrete input: three toggles of the pair (1, 7)
leave one row, and the counters after a toggle are the live aggregates. -/
theorem c4_attendance_upsert_witness :
    pairRowCount c4db 1 7 ≤ 1
      ∧ (pairRowCount (toggleSeq c4db 7 1 [true, false, true]) 1 7 ≤ 1
        ∧ (∀ m ∈ (toggle_attendance c4db 7 1 true).meetings, m.id = 7 →
            m.total_invited = (meetingRowCount (toggle_attendance c4db 7 1 true) 7 : Int)
            ∧ m.attendance_count =
              (meetingPresentCount (toggle_attendance c4db 7 1 true) 7 : Int))) :=
  ⟨by decide, c4_attendance_upsert c4db 7 1 [true, false, true] true (by decide)⟩

/-- C10: a successful toggle for a pair that already has an attendance row
replaces the row wholesale; the `INSERT OR REPLACE` supplies only
`citizen_id`, `meeting_id` and `is_present`, so afterwards the pair's one
row has `points_earned = 0`, `arrival_time = NULL`, `notes = NULL`
whatever they were before, and carries a fresh AUTOINCREMENT id distinct
from the replaced row's id. -/
theorem c10_replace_resets_row (db : MDB) (meeting_id citizen_id : Int) (b : Bool)
    (r : AttRow) (hr : r ∈ db.attendance) (hrc : r.citizen_id = citizen_id)
    (hrm : r.meeting_id = meeting_id)
    (hids : ∀ s ∈ db.attendance, s.id < db.nextAttId) :
    (toggle_attendance db meeting_id citizen_id b).attendance.filter (fun s =>
        decide (s.citizen_id = citizen_id) && decide (s.meeting_id = meeting_id))
      = [{ id := db.nextAttId, citizen_id := citizen_id, meeting_id := meeting_id,
           is_present := if b then 1 else 0, points_earned := 0,
           arrival_time := none, notes := none }]
      ∧ db.nextAttId ≠ r.id := by
  refine ⟨toggle_pair_rows db meeting_id citizen_id b, ?_⟩
  exact Nat.ne_of_gt (hids r hr)

/-- C10 example state: the pair (1, 7) already has a row with nonzero
`points_earned`, an arrival time and notes. -/
def c10db : MDB :=
  { attendance := [⟨0, 1, 7, 1, 5, some "09:00", some "vip"⟩],
    meetings := [⟨7, 1, 1⟩], nextAttId := 1 }

/-- C10, checked at a concrete input: after the toggle the pair's row is
reset to the column defaults under a fresh id. -/
theorem c10_replace_resets_row_witness :
    (⟨0, 1, 7, 1, 5, some "09:00", some "vip"⟩ : AttRow) ∈ c10db.attendance
      ∧ (∀ s ∈ c10db.attendance, s.id < c10db.nextAttId)
      ∧ ((toggle_attendance c10db 7 1 false).attendance.filter (fun s =>
            decide (s.citizen_id = 1) && decide (s.meeting_id = 7))
          = [{ id := 1, citizen_id := 1, meeting_id := 7,
               is_present := if false then 1 else 0, points_earned := 0,
               arrival_time := none, notes := none }]
        ∧ (1 : Nat) ≠ 0) :=
  ⟨by decide, by decide,
    c10_replace_resets_row c10db 7 1 false ⟨0, 1, 7, 1, 5, some "09:00", some "vip"⟩
      (by decide) rfl rfl (by decide)⟩

/-- The first `k` pages laid end to end are the first `k * P` rows. -/
theorem pages_flatten {α : Type} (rows : List α) (P : Nat) (k : Nat) :
    ((List.range k).map (fun i => (get_paginated rows (i + 1) P).1)).flatten
      = rows.take (k * P) := by
  induction k with
  | zero => simp
  | succ n ih =>
      rw [List.range_succ, List.map_append, List.flatten_append, ih, Nat.succ_mul,
        List.take_add]
      simp [get_paginated]

/-- The ceiling quotient of N by P, multiplied back by P, covers N. -/
theorem le_ceil_mul (N P : Nat) (hP : 0 < P) : N ≤ ((N + P - 1) / P) * P := by
  have h := Nat.div_add_mod (N + P - 1) P
  have h2 : (N + P - 1) % P < P := Nat.mod_lt _ hP
  rw [Nat.mul_comm]
  omega

/-- C5: for any table of rows in the declared order and any page size
P > 0, the pages 1..⌈N/P⌉ laid end to end are exactly the rows (each row
once, in order); the metadata satisfies `total_pages = ⌈N/P⌉`,
`has_next = (page < total_pages)` and `has_prev = (page > 1)`; and a page
beyond the last yields an empty data list with `has_next = false` rather
than an error. -/
theorem c5_pagination {α : Type} (rows : List α) (P : Nat) (hP : 0 < P) :
    ((List.range (rows.length ⌈/⌉ P)).map
        (fun k => (get_paginated rows (k + 1) P).1)).flatten = rows
      ∧ (∀ page : Nat, (get_paginated rows page P).2.total_pages = rows.length ⌈/⌉ P
          ∧ (get_paginated rows page P).2.has_next
            = decide (page < rows.length ⌈/⌉ P)
          ∧ (get_paginated rows page P).2.has_prev = decide (1 < page))
      ∧ (∀ page : Nat, rows.length ⌈/⌉ P < page →
          (get_paginated rows page P).1 = []
            ∧ (get_paginated rows page P).2.has_next = false) := by
  refine ⟨?_, fun page => ⟨rfl, rfl, rfl⟩, ?_⟩
  · rw [pages_flatten]
    exact List.take_of_length_le
      (by rw [Nat.ceilDiv_eq_add_pred_div]; exact le_ceil_mul rows.length P hP)
  · intro page hpage
    rw [Nat.ceilDiv_eq_add_pred_div] at hpage
    constructor
    · have hoff : rows.length ≤ (page - 1) * P := by
        calc rows.length ≤ ((rows.length + P - 1) / P) * P := le_ceil_mul _ P hP
          _ ≤ (page - 1) * P := Nat.mul_le_mul_right P (by omega)
      simp only [get_paginated]
      rw [List.drop_eq_nil_of_le hoff]
      exact List.take_nil
    · simp only [get_paginated]
      exact decide_eq_false (by omega)

/-- C5, checked at a concrete input: five rows with page size 2 give three
pages covering the rows, and page 4 is empty with no next page. -/
theorem c5_pagination_witness :
    (0 : Nat) < 2
      ∧ (((List.range (([10, 20, 30, 40, 50] : List Nat).length ⌈/⌉ 2)).map
            (fun k => (get_paginated [10, 20, 30, 40, 50] (k + 1) 2).1)).flatten
          = [10, 20, 30, 40, 50]
        ∧ (∀ page : Nat,
            (get_paginated [10, 20, 30, 40, 50] page 2).2.total_pages
              = ([10, 20, 30, 40, 50] : List Nat).length ⌈/⌉ 2
            ∧ (get_paginated [10, 20, 30, 40, 50] page 2).2.has_next
              = decide (page < ([10, 20, 30, 40, 50] : List Nat).length ⌈/⌉ 2)
            ∧ (get_paginated [10, 20, 30, 40, 50] page 2).2.has_prev
              = decide (1 < page))
        ∧ (∀ page : Nat, ([10, 20, 30, 40, 50] : List Nat).length ⌈/⌉ 2 < page →
            (get_paginated [10, 20, 30, 40, 50] page 2).1 = []
              ∧ (get_paginated [10, 20, 30, 40, 50] page 2).2.has_next = false)) :=
  ⟨by decide, c5_pagination [10, 20, 30, 40, 50] 2 (by decide)⟩

/-- C6 example state: three active citizens with lifetime totals 50, 0 and
200 and no ledger rows. -/
def c6db : DB :=
  { ledger := [], citizens := [⟨1, 50, true⟩, ⟨2, 0, true⟩, ⟨3, 200, true⟩],
    nextId := 0 }

/-- C6: the all-time leaderboard of totals [50, 0, 200] at limit 3 is
[200, 50] with the 0-total citizen excluded; in general the board holds at
most `limit` rows, every row comes from an active citizen with strictly
positive lifetime total (carrying that citizen's total and activity
count), every such citizen appears whenever `limit` accommodates all
qualifying citizens, and the rows are ordered by total descending with
ties broken by activity count descending. -/
theorem c6_leaderboard :
    ((get_leaderboard c6db 3).map (fun r => r.id) = [3, 1])
      ∧ (∀ db : DB, ∀ limit : Nat, (get_leaderboard db limit).length ≤ limit)
      ∧ (∀ db : DB, ∀ limit : Nat, ∀ r ∈ get_leaderboard db limit,
          ∃ c ∈ db.citizens, c.is_active = true ∧ 0 < c.total_points
            ∧ r.id = c.id ∧ r.total_points = c.total_points
            ∧ r.activities_count = activitiesCount db c.id)
      ∧ (∀ db : DB, ∀ limit : Nat, ∀ c ∈ db.citizens,
          c.is_active = true → 0 < c.total_points →
          (db.citizens.filter (fun c2 =>
            c2.is_active && decide (0 < c2.total_points))).length ≤ limit →
          ∃ r ∈ get_leaderboard db limit, r.id = c.id
            ∧ r.total_points = c.total_points
            ∧ r.activities_count = activitiesCount db c.id)
      ∧ (∀ db : DB, ∀ limit : Nat,
          (get_leaderboard db limit).Pairwise lbOrder) := by
  refine ⟨by decide, fun db limit => List.length_take_le _ _, ?_, ?_, ?_⟩
  · intro db limit r hr
    have hr2 : r ∈ (db.citizens.filter (fun c =>
        c.is_active && decide (0 < c.total_points))).map
        (fun c => { id := c.id, total_points := c.total_points,
                    activities_count := activitiesCount db c.id : LBRow }) :=
      (List.perm_insertionSort lbOrder _).mem_iff.mp (List.mem_of_mem_take hr)
    obtain ⟨c, hcf, rfl⟩ := List.mem_map.mp hr2
    obtain ⟨hcm, hcp⟩ := List.mem_filter.mp hcf
    simp only [Bool.and_eq_true, decide_eq_true_eq] at hcp
    exact ⟨c, hcm, hcp.1, hcp.2, rfl, rfl, rfl⟩
  · intro db limit c hc hact hpos hlim
    have hcf : c ∈ db.citizens.filter (fun c2 =>
        c2.is_active && decide (0 < c2.total_points)) :=
      List.mem_filter.mpr ⟨hc, by simp [hact, hpos]⟩
    have hmem : (⟨c.id, c.total_points, activitiesCount db c.id⟩ : LBRow) ∈
        List.insertionSort lbOrder ((db.citizens.filter (fun c2 =>
          c2.is_active && decide (0 < c2.total_points))).map
          (fun c2 => { id := c2.id, total_points := c2.total_points,
                       activities_count := activitiesCount db c2.id : LBRow })) :=
      (List.perm_insertionSort lbOrder _).mem_iff.mpr
        (List.mem_map.mpr ⟨c, hcf, rfl⟩)
    have hlen : (List.insertionSort lbOrder ((db.citizens.filter (fun c2 =>
        c2.is_active && decide (0 < c2.total_points))).map
        (fun c2 => { id := c2.id, total_points := c2.total_points,
                     activities_count := activitiesCount db c2.id : LBRow }))).length
        ≤ limit := by
      rw [(List.perm_insertionSort lbOrder _).length_eq, List.length_map]
      exact hlim
    refine ⟨⟨c.id, c.total_points, activitiesCount db c.id⟩, ?_, rfl, rfl, rfl⟩
    unfold get_leaderboard
    rw [List.take_of_length_le hlen]
    exact hmem
  · intro db limit
    exact List.Pairwise.sublist (List.take_sublist _ _)
      (List.sorted_insertionSort lbOrder _)

end Mahalla
